import Mathlib

/-!
Shallow embedding of `packages/dialog/src/Dialog.hook.ts` (the `useDialog`
hook of the dialog widget) and proofs about its event-handler logic.

DOM event targets are abstracted as natural numbers (reference identity
becomes equality on `Nat`).  Handlers are pure functions from their inputs to
the list of observable actions they perform, in order: stopping propagation
and invoking each of the callbacks `onClose`, `onEsc` and the
`onOverlayClick` prop.  Optional callbacks are recorded by presence: an
optional-chained call `f?.()` emits its action exactly when the callback is
present.
-/

namespace ChakraDialog

/-- Abstract DOM event target; equality models JavaScript reference identity. -/
abbrev EventTarget := Nat

/-- Mouse event, carrying only its target: the single field the handlers read. -/
structure MouseEvent where
  target : EventTarget
  deriving DecidableEq, Repr

/-- Keyboard event, carrying the pressed key: the single field the handler reads. -/
structure KeyboardEvent where
  key : String
  deriving DecidableEq, Repr

/-- Observable actions a handler can perform: stopping event propagation and
invoking each of the three callbacks of `DialogHookProps`. -/
inductive Eff where
  | stopPropagation
  | closeCall
  | escCall
  | overlayClickCall
  deriving DecidableEq, Repr

/-- Props accepted by `useDialog`.  Optional booleans are `none` when the
caller omits them; callbacks are recorded by presence (`onClose` is declared
required but still optional-chained in the handlers). -/
structure DialogHookProps where
  isOpen : Bool
  shouldBlockScroll : Option Bool
  shouldCloseOnOverlayClick : Option Bool
  shouldCloseOnEsc : Option Bool
  useInert : Option Bool
  hasOnClose : Bool
  hasOnEsc : Bool
  hasOnOverlayClickProp : Bool
  deriving DecidableEq, Repr

/-- Configuration after the destructuring at the top of `useDialog`: booleans
already defaulted, callback presence carried through. -/
structure Config where
  shouldCloseOnOverlayClick : Bool
  shouldCloseOnEsc : Bool
  shouldBlockScroll : Bool
  useInert : Bool
  hasOnClose : Bool
  hasOnEsc : Bool
  hasOnOverlayClickProp : Bool
  deriving DecidableEq, Repr

/-- Destructuring of the props in `useDialog`, with its defaults
`shouldCloseOnOverlayClick = true`, `shouldCloseOnEsc = true`,
`shouldBlockScroll = true`, `useInert = true`. -/
def resolveConfig (p : DialogHookProps) : Config :=
  { shouldCloseOnOverlayClick := p.shouldCloseOnOverlayClick.getD true
    shouldCloseOnEsc := p.shouldCloseOnEsc.getD true
    shouldBlockScroll := p.shouldBlockScroll.getD true
    useInert := p.useInert.getD true
    hasOnClose := p.hasOnClose
    hasOnEsc := p.hasOnEsc
    hasOnOverlayClickProp := p.hasOnOverlayClickProp }

/-- Handler `onMouseDown`: stores the event target in the `mouseDownTarget`
ref (`mouseDownTarget.current = event.target`). -/
def onMouseDown (event : MouseEvent) : Option EventTarget :=
  some event.target

/-- Handler `onKeyDown`: on the key `"Escape"` it stops propagation, invokes
`onClose` when `shouldCloseOnEsc` holds, then invokes `onEsc`; on any other
key it does nothing at all. -/
def onKeyDown (cfg : Config) (event : KeyboardEvent) : List Eff :=
  if event.key = "Escape" then
    [Eff.stopPropagation]
      ++ (if cfg.shouldCloseOnEsc then
            (if cfg.hasOnClose then [Eff.closeCall] else [])
          else [])
      ++ (if cfg.hasOnEsc then [Eff.escCall] else [])
  else []

/-- Handler `onOverlayClick`: stops propagation, returns early unless the
click target is the recorded mouse-down target, and acts only when the
manager reports this dialog as topmost.  The manager (`Dialog.manager`, a
module outside the given sources) enters as the abstract boolean verdict
`isTopDialog` of `manager.isTopDialog(dialogRef)`. -/
def onOverlayClick (cfg : Config) (isTopDialog : Bool)
    (mouseDownTarget : Option EventTarget) (event : MouseEvent) : List Eff :=
  Eff.stopPropagation ::
    (if mouseDownTarget ≠ some event.target then []
     else if isTopDialog then
       (if cfg.shouldCloseOnOverlayClick then
          (if cfg.hasOnClose then [Eff.closeCall] else [])
        else [])
         ++ (if cfg.hasOnOverlayClickProp then [Eff.overlayClickCall] else [])
     else [])

/-- JavaScript `a || b` on an optional string: a missing or empty (falsy)
string falls back to the alternative. -/
def jsOrString (v : Option String) (alt : String) : String :=
  match v with
  | some s => if s = "" then alt else s
  | none => alt

/-- Generated element ids (`useIds` produces `dialogId`, `headerId`, `bodyId`). -/
structure HookIds where
  dialogId : String
  headerId : String
  bodyId : String
  deriving DecidableEq, Repr

/-- Attributes that `getDialogContentProps` computes itself (the caller
spread is kept except where these override it). -/
structure ContentProps where
  id : String
  role : String
  tabIndex : Int
  ariaModal : Bool
  ariaLabelledby : Option String
  ariaDescribedby : Option String
  deriving DecidableEq, Repr

/-- Prop getter for the dialog content element, as a function of the
generated ids, the mounted flags and the caller-supplied `role`. -/
def getDialogContentProps (ids : HookIds) (headerMounted bodyMounted : Bool)
    (callerRole : Option String) : ContentProps :=
  { id := ids.dialogId
    role := jsOrString callerRole "dialog"
    tabIndex := -1
    ariaModal := true
    ariaLabelledby := if headerMounted then some ids.headerId else none
    ariaDescribedby := if bodyMounted then some ids.bodyId else none }

/-- Role selection as the specification claim words it: the caller's role
whenever one is given, `"dialog"` otherwise.  Stated for comparison with the
`props.role || "dialog"` of the source. -/
def specRoleChoice (callerRole : Option String) : String :=
  callerRole.getD "dialog"

/-- Abstract state of the `aria-hidden` attributes of the rest of the page. -/
structure AriaWorld where
  othersHidden : Bool
  deriving DecidableEq, Repr

/-- Modelled from the spec: `hideOthers` of the external `aria-hidden`
package (an opaque collaborator, not among the given sources) marks the
siblings of the dialog node hidden and returns an `Undo` restoring the
previous state. -/
def hideOthers (w : AriaWorld) : AriaWorld × (AriaWorld → AriaWorld) :=
  ({ othersHidden := true }, fun _ => w)

/-- One run of the effect body inside `useAriaHidden`: the world after the
body together with the stored `undo`, which is present exactly when
`hideOthers` ran.  A `none` ref takes the early return, so no undo is stored
and the world is untouched. -/
def runAriaHiddenEffect (refCurrent : Option EventTarget) (shouldHide : Bool)
    (w : AriaWorld) : AriaWorld × Option (AriaWorld → AriaWorld) :=
  match refCurrent with
  | none => (w, none)
  | some _ =>
      if shouldHide then
        let p := hideOthers w
        (p.1, some p.2)
      else (w, none)

/-- Cleanup returned by the `useAriaHidden` effect: when `shouldHide` held,
run the stored undo if one exists. -/
def ariaCleanup (shouldHide : Bool) (undo : Option (AriaWorld → AriaWorld))
    (w : AriaWorld) : AriaWorld :=
  if shouldHide then
    match undo with
    | some u => u w
    | none => w
  else w

/-- Flags `useDialog` passes to its effect sub-hooks:
`useLockBodyScroll(dialogRef, isOpen && shouldBlockScroll)` and
`useAriaHidden(dialogRef, isOpen && useInert)`. -/
structure HookWiring where
  lockBodyScrollEnabled : Bool
  ariaHiddenShouldHide : Bool
  deriving DecidableEq, Repr

/-- Wiring of `useDialog`: the flags handed to the scroll-lock and
aria-hidden sub-hooks, computed from the destructured props. -/
def useDialog (p : DialogHookProps) : HookWiring :=
  { lockBodyScrollEnabled := p.isOpen && (resolveConfig p).shouldBlockScroll
    ariaHiddenShouldHide := p.isOpen && (resolveConfig p).useInert }

/-- Handler state retained between overlay events: the `mouseDownTarget` ref
plus the history of effects already performed (extra retained data the click
decision must not depend on). -/
structure SessionState where
  mouseDownTarget : Option EventTarget
  log : List Eff
  deriving DecidableEq, Repr

/-- Events the overlay element receives through `getDialogOverlayProps`. -/
inductive OverlayEvent where
  | mouseDown (e : MouseEvent)
  | click (e : MouseEvent)
  | keyDown (e : KeyboardEvent)
  deriving DecidableEq, Repr

/-- One overlay event processed by the handlers wired in
`getDialogOverlayProps`, threading the retained state and returning the
effects of this event. -/
def stepOverlay (cfg : Config) (isTopDialog : Bool) (s : SessionState)
    (ev : OverlayEvent) : SessionState × List Eff :=
  match ev with
  | OverlayEvent.mouseDown e =>
      ({ s with mouseDownTarget := onMouseDown e }, [])
  | OverlayEvent.click e =>
      let effs := onOverlayClick cfg isTopDialog s.mouseDownTarget e
      ({ s with log := s.log ++ effs }, effs)
  | OverlayEvent.keyDown e =>
      let effs := onKeyDown cfg e
      ({ s with log := s.log ++ effs }, effs)

/-- Modelled from the spec: `callAllHandlers` of the utilities package (an
event-handler-composition collaborator outside the given sources) invokes
each handler in the order given; its effects are the concatenation in order. -/
def callAllHandlers (first second : List Eff) : List Eff :=
  first ++ second

/-- Effects of the `onClick` that `getDialogContentProps` attaches: the
caller's handler, then a handler that stops propagation. -/
def contentOnClick (callerOnClick : List Eff) : List Eff :=
  callAllHandlers callerOnClick [Eff.stopPropagation]

/-- Modelled from the spec: DOM bubbling from the content element to the
overlay element.  The overlay click handler runs only when no handler at the
content stopped propagation. -/
def dispatchContentClick (callerOnClick : List Eff)
    (overlayEffects : List Eff) : List Eff :=
  let c := contentOnClick callerOnClick
  if Eff.stopPropagation ∈ c then c else c ++ overlayEffects

/-- Concrete props used by the witnesses: dialog open, every optional boolean
left to its default, every callback provided. -/
def sampleProps : DialogHookProps :=
  { isOpen := true
    shouldBlockScroll := none
    shouldCloseOnOverlayClick := none
    shouldCloseOnEsc := none
    useInert := none
    hasOnClose := true
    hasOnEsc := true
    hasOnOverlayClickProp := true }

/-- Concrete generated ids used by the witnesses. -/
def sampleIds : HookIds :=
  { dialogId := "chakra-dialog-1"
    headerId := "chakra-dialog--header-1"
    bodyId := "chakra-dialog--body-1" }

/-- C1: for an overlay click whose target equals the stored mouse-down
target, with the callbacks provided: the `onOverlayClick` prop is invoked iff
the manager reports the dialog topmost, and `onClose` is invoked iff the
dialog is topmost and `shouldCloseOnOverlayClick` holds (which defaults to
true via `resolveConfig`); in particular a non-topmost dialog is never
closed by an overlay click. -/
theorem overlayClick_topmost_decision (p : DialogHookProps) (top : Bool)
    (mdt : Option EventTarget) (e : MouseEvent)
    (hmatch : mdt = some e.target)
    (hclose : p.hasOnClose = true) (hprop : p.hasOnOverlayClickProp = true) :
    (Eff.overlayClickCall ∈ onOverlayClick (resolveConfig p) top mdt e
        ↔ top = true)
      ∧ (Eff.closeCall ∈ onOverlayClick (resolveConfig p) top mdt e
        ↔ (top = true ∧ p.shouldCloseOnOverlayClick.getD true = true)) := by
  subst hmatch
  cases top <;>
    rcases hsc : p.shouldCloseOnOverlayClick.getD true <;>
      simp [onOverlayClick, resolveConfig, hclose, hprop, hsc]

/-- Witness for C1 at concrete inputs: topmost dialog, matching targets,
default configuration with all callbacks provided. -/
theorem overlayClick_topmost_decision_witness :
    ((some 0 : Option EventTarget) = some (MouseEvent.mk 0).target)
      ∧ ((Eff.overlayClickCall
            ∈ onOverlayClick (resolveConfig sampleProps) true (some 0)
              (MouseEvent.mk 0) ↔ true = true)
        ∧ (Eff.closeCall
            ∈ onOverlayClick (resolveConfig sampleProps) true (some 0)
              (MouseEvent.mk 0)
          ↔ (true = true
              ∧ sampleProps.shouldCloseOnOverlayClick.getD true = true))) :=
  ⟨rfl, overlayClick_topmost_decision sampleProps true (some 0)
    (MouseEvent.mk 0) rfl rfl rfl⟩

/-- C2: a click whose target differs from the target recorded by the most
recent mouse-down performs only the unconditional `stopPropagation`; neither
`onClose` nor the `onOverlayClick` prop is invoked, for any configuration and
any manager verdict. -/
theorem overlayClick_drag_ignored (cfg : Config) (top : Bool)
    (s : SessionState) (e1 e2 : MouseEvent) (h : e1.target ≠ e2.target) :
    (stepOverlay cfg top
        (stepOverlay cfg top s (OverlayEvent.mouseDown e1)).1
        (OverlayEvent.click e2)).2 = [Eff.stopPropagation] := by
  simp [stepOverlay, onMouseDown, onOverlayClick, h]

/-- Witness for C2 at concrete inputs: mouse-down on target 0, click on
target 1. -/
theorem overlayClick_drag_ignored_witness :
    ((MouseEvent.mk 0).target ≠ (MouseEvent.mk 1).target)
      ∧ (stepOverlay (resolveConfig sampleProps) true
          (stepOverlay (resolveConfig sampleProps) true
            (SessionState.mk none [])
            (OverlayEvent.mouseDown (MouseEvent.mk 0))).1
          (OverlayEvent.click (MouseEvent.mk 1))).2 = [Eff.stopPropagation] :=
  ⟨by decide, overlayClick_drag_ignored (resolveConfig sampleProps) true
    (SessionState.mk none []) (MouseEvent.mk 0) (MouseEvent.mk 1) (by decide)⟩

/-- C3: with `onClose` provided, `onKeyDown` invokes `onClose` iff the key is
`"Escape"` and `shouldCloseOnEsc` holds (true by default via
`resolveConfig`); on any non-Escape key the handler performs nothing at all —
no callback and no propagation stop. -/
theorem keyDown_escape_close_iff (p : DialogHookProps)
    (e e2 : KeyboardEvent) (hclose : p.hasOnClose = true)
    (hk2 : e2.key ≠ "Escape") :
    (Eff.closeCall ∈ onKeyDown (resolveConfig p) e
        ↔ (e.key = "Escape" ∧ p.shouldCloseOnEsc.getD true = true))
      ∧ onKeyDown (resolveConfig p) e2 = [] := by
  constructor
  · by_cases hk : e.key = "Escape" <;>
      rcases hsc : p.shouldCloseOnEsc.getD true <;>
        simp [onKeyDown, resolveConfig, hclose, hk, hsc]
  · simp [onKeyDown, hk2]

/-- Witness for C3 at concrete inputs: Escape under the default
configuration, and the key "Enter" as the non-Escape case. -/
theorem keyDown_escape_close_iff_witness :
    (sampleProps.hasOnClose = true)
      ∧ ((KeyboardEvent.mk "Enter").key ≠ "Escape")
      ∧ ((Eff.closeCall ∈ onKeyDown (resolveConfig sampleProps)
            (KeyboardEvent.mk "Escape")
          ↔ ((KeyboardEvent.mk "Escape").key = "Escape"
              ∧ sampleProps.shouldCloseOnEsc.getD true = true))
        ∧ onKeyDown (resolveConfig sampleProps) (KeyboardEvent.mk "Enter") = []) :=
  ⟨rfl, by decide, keyDown_escape_close_iff sampleProps
    (KeyboardEvent.mk "Escape") (KeyboardEvent.mk "Enter") rfl (by decide)⟩

/-- C4 counterexample: a caller-supplied role that is the empty string is a
given role, yet `props.role || "dialog"` treats it as falsy, so the returned
role is `"dialog"` and not the caller's role as the claim states. -/
theorem contentProps_role_empty_counterexample :
    (getDialogContentProps sampleIds true true (some "")).role
      ≠ specRoleChoice (some "") := by
  decide

/-- C4 amended: `getDialogContentProps` returns id `dialogId`, tabIndex -1,
aria-modal true, aria-labelledby `headerId` exactly when the header is
mounted and aria-describedby `bodyId` exactly when the body is mounted; the
role is the caller's role when a non-empty one is given and `"dialog"` when
the role is omitted or empty (the empty string falls through the `||`
fallback). -/
theorem contentProps_attributes (ids : HookIds) (hm bm : Bool)
    (r : Option String) (s : String) (hs : s ≠ "") :
    (getDialogContentProps ids hm bm r).id = ids.dialogId
      ∧ (getDialogContentProps ids hm bm r).tabIndex = -1
      ∧ (getDialogContentProps ids hm bm r).ariaModal = true
      ∧ (getDialogContentProps ids hm bm r).ariaLabelledby
          = (if hm then some ids.headerId else none)
      ∧ (getDialogContentProps ids hm bm r).ariaDescribedby
          = (if bm then some ids.bodyId else none)
      ∧ (getDialogContentProps ids hm bm (some s)).role = s
      ∧ (getDialogContentProps ids hm bm none).role = "dialog"
      ∧ (getDialogContentProps ids hm bm (some "")).role = "dialog" := by
  refine ⟨rfl, rfl, rfl, rfl, rfl, ?_, rfl, rfl⟩
  simp [getDialogContentProps, jsOrString, hs]

/-- Witness for C4 at concrete inputs: header and body mounted, caller role
"alertdialog". -/
theorem contentProps_attributes_witness :
    ("alertdialog" ≠ "")
      ∧ ((getDialogContentProps sampleIds true false (some "alertdialog")).id
            = sampleIds.dialogId
        ∧ (getDialogContentProps sampleIds true false
            (some "alertdialog")).tabIndex = -1
        ∧ (getDialogContentProps sampleIds true false
            (some "alertdialog")).ariaModal = true
        ∧ (getDialogContentProps sampleIds true false
            (some "alertdialog")).ariaLabelledby
            = (if true then some sampleIds.headerId else none)
        ∧ (getDialogContentProps sampleIds true false
            (some "alertdialog")).ariaDescribedby
            = (if false then some sampleIds.bodyId else none)
        ∧ (getDialogContentProps sampleIds true false
            (some "alertdialog")).role = "alertdialog"
        ∧ (getDialogContentProps sampleIds true false none).role = "dialog"
        ∧ (getDialogContentProps sampleIds true false (some "")).role
            = "dialog") :=
  ⟨by decide, contentProps_attributes sampleIds true false
    (some "alertdialog") "alertdialog" (by decide)⟩

/-- C5: with the flag `isOpen && useInert` that `useDialog` hands to
`useAriaHidden`, one effect run applies `hideOthers` — and stores its undo —
exactly when the dialog is open, `useInert` holds (true by default) and the
ref is non-null; and running the stored cleanup after the effect restores
the world that existed before the effect, whatever it was. -/
theorem ariaHidden_apply_undo_roundtrip (p : DialogHookProps)
    (ref : Option EventTarget) (w : AriaWorld) :
    ((runAriaHiddenEffect ref (useDialog p).ariaHiddenShouldHide w).2.isSome
        = (p.isOpen && p.useInert.getD true && ref.isSome))
      ∧ ((runAriaHiddenEffect ref (useDialog p).ariaHiddenShouldHide w).1
        = (if p.isOpen && p.useInert.getD true && ref.isSome then
            AriaWorld.mk true
          else w))
      ∧ ariaCleanup (useDialog p).ariaHiddenShouldHide
          (runAriaHiddenEffect ref (useDialog p).ariaHiddenShouldHide w).2
          (runAriaHiddenEffect ref (useDialog p).ariaHiddenShouldHide w).1
        = w := by
  rcases ref with _ | t <;>
    rcases ho : p.isOpen <;>
      rcases hi : p.useInert.getD true <;>
        simp [runAriaHiddenEffect, ariaCleanup, hideOthers, useDialog,
          resolveConfig, ho, hi]

/-- C6: `useDialog` requests body scroll locking exactly when the dialog is
open and `shouldBlockScroll` holds, where an omitted `shouldBlockScroll`
defaults to true. -/
theorem lockBodyScroll_enabled_iff (p : DialogHookProps) :
    (useDialog p).lockBodyScrollEnabled = true
      ↔ (p.isOpen = true ∧ p.shouldBlockScroll.getD true = true) := by
  simp [useDialog, resolveConfig]

/-- C7: the overlay click decision is state-free — two runs whose retained
states agree on the `mouseDownTarget` ref produce identical effects for the
same click event under the same configuration and manager verdict, whatever
else the two histories retained. -/
theorem overlayClick_state_free (cfg : Config) (top : Bool)
    (s1 s2 : SessionState) (e : MouseEvent)
    (h : s1.mouseDownTarget = s2.mouseDownTarget) :
    (stepOverlay cfg top s1 (OverlayEvent.click e)).2
      = (stepOverlay cfg top s2 (OverlayEvent.click e)).2 := by
  simp [stepOverlay, h]

/-- Witness for C7 at concrete inputs: two states with the same recorded
mouse-down target but different retained effect histories. -/
theorem overlayClick_state_free_witness :
    ((SessionState.mk (some 0) []).mouseDownTarget
        = (SessionState.mk (some 0) [Eff.closeCall]).mouseDownTarget)
      ∧ (stepOverlay (resolveConfig sampleProps) true
            (SessionState.mk (some 0) [])
            (OverlayEvent.click (MouseEvent.mk 0))).2
        = (stepOverlay (resolveConfig sampleProps) true
            (SessionState.mk (some 0) [Eff.closeCall])
            (OverlayEvent.click (MouseEvent.mk 0))).2 :=
  ⟨rfl, overlayClick_state_free (resolveConfig sampleProps) true
    (SessionState.mk (some 0) []) (SessionState.mk (some 0) [Eff.closeCall])
    (MouseEvent.mk 0) rfl⟩

/-- C8: an absent callback is handled totally by the optional chains — for
each of the callbacks `onClose`, `onEsc` and the `onOverlayClick` prop,
running a handler without it yields exactly the effects of the same handler
with it, minus that call, with nothing in its place (the handlers are total
functions, so no error is raised). -/
theorem handlers_absent_callback_skip (cfg : Config) (ek : KeyboardEvent)
    (top : Bool) (mdt : Option EventTarget) (ec : MouseEvent) :
    onKeyDown { cfg with hasOnClose := false } ek
        = (onKeyDown cfg ek).filter (fun x => x ≠ Eff.closeCall)
      ∧ onKeyDown { cfg with hasOnEsc := false } ek
        = (onKeyDown cfg ek).filter (fun x => x ≠ Eff.escCall)
      ∧ onOverlayClick { cfg with hasOnClose := false } top mdt ec
        = (onOverlayClick cfg top mdt ec).filter (fun x => x ≠ Eff.closeCall)
      ∧ onOverlayClick { cfg with hasOnOverlayClickProp := false } top mdt ec
        = (onOverlayClick cfg top mdt ec).filter
            (fun x => x ≠ Eff.overlayClickCall) := by
  refine ⟨?_, ?_, ?_, ?_⟩ <;>
    · simp only [onKeyDown, onOverlayClick]
      split_ifs <;> simp_all [List.filter]

/-- C9: the content element's `onClick` always ends by stopping propagation,
after the caller's own handler, so a click originating inside the dialog
content never reaches the overlay handler: dispatching through the content
performs the content effects only, whatever the overlay handler would do. -/
theorem contentClick_stops_bubbling (callerOnClick overlayEffects : List Eff) :
    Eff.stopPropagation ∈ contentOnClick callerOnClick
      ∧ contentOnClick callerOnClick = callerOnClick ++ [Eff.stopPropagation]
      ∧ dispatchContentClick callerOnClick overlayEffects
        = contentOnClick callerOnClick := by
  refine ⟨?_, rfl, ?_⟩ <;> simp [contentOnClick, callAllHandlers,
    dispatchContentClick]

/-- C10: on every `"Escape"` keydown the handler stops propagation and, when
provided, invokes `onEsc` unconditionally; `onClose` is invoked there iff
`shouldCloseOnEsc` holds and `onClose` is provided — so with
`shouldCloseOnEsc` false, `onEsc` still fires while the dialog is not
closed. -/
theorem keyDown_escape_esc_unconditional (cfg : Config) (e : KeyboardEvent)
    (hk : e.key = "Escape") (hesc : cfg.hasOnEsc = true) :
    Eff.stopPropagation ∈ onKeyDown cfg e
      ∧ Eff.escCall ∈ onKeyDown cfg e
      ∧ (Eff.closeCall ∈ onKeyDown cfg e
        ↔ (cfg.shouldCloseOnEsc = true ∧ cfg.hasOnClose = true)) := by
  rcases hsc : cfg.shouldCloseOnEsc <;>
    rcases hc : cfg.hasOnClose <;>
      simp [onKeyDown, hk, hesc, hsc, hc]

/-- Witness for C10 at concrete inputs: Escape with `shouldCloseOnEsc`
disabled and `onEsc` provided. -/
theorem keyDown_escape_esc_unconditional_witness :
    ((KeyboardEvent.mk "Escape").key = "Escape")
      ∧ ((Config.mk true false true true true true true).hasOnEsc = true)
      ∧ (Eff.stopPropagation
            ∈ onKeyDown (Config.mk true false true true true true true)
              (KeyboardEvent.mk "Escape")
        ∧ Eff.escCall
            ∈ onKeyDown (Config.mk true false true true true true true)
              (KeyboardEvent.mk "Escape")
        ∧ (Eff.closeCall
            ∈ onKeyDown (Config.mk true false true true true true true)
              (KeyboardEvent.mk "Escape")
          ↔ ((Config.mk true false true true true true true).shouldCloseOnEsc
                = true
              ∧ (Config.mk true false true true true true true).hasOnClose
                = true))) :=
  ⟨rfl, rfl, keyDown_escape_esc_unconditional
    (Config.mk true false true true true true true)
    (KeyboardEvent.mk "Escape") rfl rfl⟩

end ChakraDialog
